/-
Verification of the telemetry event pipeline of the CAPY-RPI discord-bot
repository (capy_discord/exts/core/telemetry.py and capy_discord/errors.py).

Shallow embedding conventions:
  * Python `dict[int, tuple[str, float]]` (the pending map) is modelled as a
    partial function `Int → Option (String × ℚ)`.
  * Monotonic time (`time.monotonic()`) is modelled as a rational number and
    passed explicitly to every operation that reads the clock.
  * `asyncio.Queue(maxsize=1000)` is modelled as a FIFO `List TelemetryEvent`
    together with the capacity check of `put_nowait` / `get_nowait`.
  * Log output (`self.log.warning` / `self.log.debug` / `self.log.exception`)
    is modelled as an append-only `List LogEntry`.
  * Python floats in the latency accumulator are modelled as rationals;
    `float("inf")` (the initial `min_ms`) is the top element of `WithTop ℚ`.
  * Exceptions passed to `log_command_failure` are modelled by a closed
    inductive `PyExc` distinguishing the `UserFriendlyError` family, the
    `app_commands.CommandInvokeError` wrapper, and every other class, each
    carrying its concrete class name.
-/
import Mathlib

namespace CapyTelemetry

/-- Constant `_STALE_THRESHOLD_SECONDS = 60` (telemetry.py line 41). -/
def _STALE_THRESHOLD_SECONDS : ℚ := 60

/-- Constant `_QUEUE_MAX_SIZE = 1000` (telemetry.py line 44). -/
def _QUEUE_MAX_SIZE : Nat := 1000

/-- Modelled from the spec: the Phase 2b per-command latency accumulator
`CommandLatencyStats` is absent from src (telemetry.py in src is Phase 2a;
only its tests import it).  Spec §3: `{count: u64, min_ms: f64 (init
+infinity), max_ms: f64 (init 0), sum_ms: f64}`. -/
structure CommandLatencyStats where
  count : Nat
  min_ms : WithTop ℚ
  max_ms : ℚ
  sum_ms : ℚ
deriving DecidableEq

/-- Modelled from the spec: initial field values of a fresh
`CommandLatencyStats()` — count 0, min +infinity, max 0, sum 0. -/
def CommandLatencyStats.init : CommandLatencyStats :=
  { count := 0, min_ms := ⊤, max_ms := 0, sum_ms := 0 }

/-- Modelled from the spec: `avg_ms = sum_ms/count` (0 when count=0). -/
def CommandLatencyStats.avg_ms (s : CommandLatencyStats) : ℚ :=
  if s.count = 0 then 0 else s.sum_ms / s.count

/-- Modelled from the spec: recording one duration — `count+1,
min=min(min,d), max=max(max,d), sum+=d` (spec §4.4). -/
def CommandLatencyStats.record (s : CommandLatencyStats) (d : ℚ) : CommandLatencyStats :=
  { count := s.count + 1
    min_ms := min s.min_ms (d : WithTop ℚ)
    max_ms := max s.max_ms d
    sum_ms := s.sum_ms + d }

/-- Payload of an `"interaction"` telemetry event, restricted to the keys the
pipeline reads downstream (`_extract_interaction_data`, telemetry.py lines
298–309, plus the `correlation_id` added at line 188). -/
structure InteractionData where
  interaction_type : String
  command_name : Option String
  user_id : Int
  guild_id : Option Int
  correlation_id : String
deriving DecidableEq

/-- Payload of a `"completion"` telemetry event (telemetry.py lines 219–224
and 264–270): `error_type` is present only for failures, `duration_ms` may be
absent in hand-built events. -/
structure CompletionData where
  correlation_id : String
  command_name : String
  status : String
  duration_ms : Option ℚ
  error_type : Option String
deriving DecidableEq

/-- The shape of the `data` dict carried by a telemetry event: either an
interaction payload or a completion payload. -/
inductive Payload where
  | interaction (d : InteractionData)
  | completion (d : CompletionData)
deriving DecidableEq

/-- Models `TelemetryEvent` (telemetry.py lines 48–53): `event_type` is a free-form
string (`"interaction"`/`"completion"` in normal operation) and `data` the
payload dict. -/
structure TelemetryEvent where
  event_type : String
  data : Payload
deriving DecidableEq

/-- One emitted log record, tagged by the call site in telemetry.py. -/
inductive LogEntry where
  /-- Models `self.log.debug` in `_log_interaction` (line 502). -/
  | debugInteraction (d : InteractionData)
  /-- Models `self.log.debug` in `_log_completion` (lines 536/545). -/
  | debugCompletion (d : CompletionData)
  /-- Models `self.log.warning("Telemetry queue full — dropping %s event", ...)` (line 159). -/
  | warnQueueFull (event_type : String)
  /-- Models `self.log.warning("Unknown telemetry event type: %s", ...)` (line 146). -/
  | warnUnknownType (event_type : String)
  /-- Models `self.log.warning("Drained %d telemetry event(s) during cog unload", count)` (line 132). -/
  | warnDrained (count : Nat)
  /-- Models `self.log.exception` in the `except` of `_dispatch_event` (line 148). -/
  | errorDispatch (event_type : String)
deriving DecidableEq

/-- Modelled from the spec: the Phase 2b in-memory `MetricsAggregator` state
(spec §3, "MetricsAggregator snapshot") is absent from src; only its tests
are.  Dict/set members are modelled as total functions defaulting to 0 /
absent, matching counter semantics (missing key reads as 0). -/
structure Metrics where
  total_interactions : Nat
  interactions_by_type : String → Nat
  command_invocations : String → Nat
  unique_user_ids : Int → Bool
  guild_interactions : Int → Nat
  completions_by_status : String → Nat
  command_latency : String → CommandLatencyStats
  command_failures : String → String → Nat
  error_types : String → Nat

/-- Modelled from the spec: all counters start at zero, the user set empty,
and every command's latency accumulator at its initial value. -/
def Metrics.init : Metrics :=
  { total_interactions := 0
    interactions_by_type := fun _ => 0
    command_invocations := fun _ => 0
    unique_user_ids := fun _ => false
    guild_interactions := fun _ => 0
    completions_by_status := fun _ => 0
    command_latency := fun _ => CommandLatencyStats.init
    command_failures := fun _ _ => 0
    error_types := fun _ => 0 }

/-- Pointwise increment of a string-keyed counter map. -/
def bumpS (f : String → Nat) (k : String) : String → Nat :=
  fun x => if x = k then f x + 1 else f x

/-- Pointwise increment of an integer-keyed counter map. -/
def bumpI (f : Int → Nat) (k : Int) : Int → Nat :=
  fun x => if x = k then f x + 1 else f x

/-- Modelled from the spec: `record_interaction` (spec §4.4) — "increments
total count; increments interactions-by-type; if a command name is present,
increments command-invocation count; adds user id to the unique-user set; if
a guild id is present (non-null — DMs have none), increments that guild's
count." -/
def Metrics.record_interaction (m : Metrics) (d : InteractionData) : Metrics :=
  { m with
    total_interactions := m.total_interactions + 1
    interactions_by_type := bumpS m.interactions_by_type d.interaction_type
    command_invocations :=
      match d.command_name with
      | some n => bumpS m.command_invocations n
      | none => m.command_invocations
    unique_user_ids := fun u => if u = d.user_id then true else m.unique_user_ids u
    guild_interactions :=
      match d.guild_id with
      | some g => bumpI m.guild_interactions g
      | none => m.guild_interactions }

/-- Modelled from the spec: `record_completion` (spec §4.4) — "increments
completions-by-status; if `duration_ms` present, updates the named command's
LatencyStats; if status is not `success`, increments the per-command
per-status failure count; if an error type name is present, increments its
global count." -/
def Metrics.record_completion (m : Metrics) (d : CompletionData) : Metrics :=
  { m with
    completions_by_status := bumpS m.completions_by_status d.status
    command_latency :=
      match d.duration_ms with
      | some dur =>
          fun c => if c = d.command_name then (m.command_latency c).record dur
                   else m.command_latency c
      | none => m.command_latency
    command_failures :=
      if d.status ≠ "success" then
        fun c s => if c = d.command_name ∧ s = d.status then m.command_failures c s + 1
                   else m.command_failures c s
      else m.command_failures
    error_types :=
      match d.error_type with
      | some et => bumpS m.error_types et
      | none => m.error_types }

/-- The mutable state of one `Telemetry` cog instance: the pending
correlation map (`self._pending`, line 80), the bounded event queue
(`self._queue`, line 81), the Phase 2b aggregate metrics, and the log sink. -/
structure TelemetryState where
  pending : Int → Option (String × ℚ)
  queue : List TelemetryEvent
  metrics : Metrics
  logs : List LogEntry

/-- Models `Telemetry.__init__` (lines 77–82): empty pending map, empty queue, and
(Phase 2b, modelled from the spec) zeroed metrics. -/
def initState : TelemetryState :=
  { pending := fun _ => none
    queue := []
    metrics := Metrics.init
    logs := [] }

/-- Models `get_metrics()` — modelled from the spec: "synchronous, read-only"
snapshot of the aggregator (spec §6); absent from the Phase 2a src, invoked
by the tests. -/
def get_metrics (st : TelemetryState) : Metrics :=
  st.metrics

/-- Models `Telemetry._pop_pending` (lines 315–329): pop and return the pending
entry; if absent, return the fallback `("unknown", now)` and leave the state
unchanged. -/
def _pop_pending (st : TelemetryState) (interaction_id : Int) (now : ℚ) :
    (String × ℚ) × TelemetryState :=
  match st.pending interaction_id with
  | some entry =>
      (entry,
       { st with pending := fun i => if i = interaction_id then none else st.pending i })
  | none => (("unknown", now), st)

/-- Models `Telemetry._cleanup_stale_entries` (lines 331–342): delete every pending
entry whose age `now - start_time` strictly exceeds the stale threshold. -/
def _cleanup_stale_entries (st : TelemetryState) (now : ℚ) : TelemetryState :=
  { st with
    pending := fun i =>
      match st.pending i with
      | some e => if now - e.2 > _STALE_THRESHOLD_SECONDS then none else some e
      | none => none }

/-- Models `Telemetry._enqueue` (lines 150–159): `put_nowait` appends when the queue
holds fewer than `_QUEUE_MAX_SIZE` events; otherwise `QueueFull` is caught,
the event is dropped, and one warning is logged. -/
def _enqueue (st : TelemetryState) (event : TelemetryEvent) : TelemetryState :=
  if st.queue.length < _QUEUE_MAX_SIZE then
    { st with queue := st.queue ++ [event] }
  else
    { st with logs := st.logs ++ [LogEntry.warnQueueFull event.event_type] }

/-- Models `Telemetry._dispatch_event` (lines 134–148), with the Phase 2b dispatch —
modelled from the spec: the consumer dispatches "each event to logging and
aggregation" (spec §2, §4.4); the src Phase 2a version routes to logging
only.  Routing is by the `event_type` string; an unknown type logs one
warning; a payload whose shape does not match its tag corresponds to the
`KeyError` caught by the surrounding `except` (line 147). -/
def _dispatch_event (st : TelemetryState) (event : TelemetryEvent) : TelemetryState :=
  if event.event_type = "interaction" then
    match event.data with
    | Payload.interaction d =>
        { st with
          metrics := st.metrics.record_interaction d
          logs := st.logs ++ [LogEntry.debugInteraction d] }
    | Payload.completion _ =>
        { st with logs := st.logs ++ [LogEntry.errorDispatch event.event_type] }
  else if event.event_type = "completion" then
    match event.data with
    | Payload.completion d =>
        { st with
          metrics := st.metrics.record_completion d
          logs := st.logs ++ [LogEntry.debugCompletion d] }
    | Payload.interaction _ =>
        { st with logs := st.logs ++ [LogEntry.errorDispatch event.event_type] }
  else
    { st with logs := st.logs ++ [LogEntry.warnUnknownType event.event_type] }

/-- The `while processed < _QUEUE_MAX_SIZE` loop body of
`_process_pending_events` (lines 110–119): fuelled by the remaining
iteration budget, stopping early when `get_nowait` raises `QueueEmpty`. -/
def processLoop : Nat → TelemetryState → TelemetryState
  | 0, st => st
  | fuel + 1, st =>
      match st.queue with
      | [] => st
      | e :: rest => processLoop fuel (_dispatch_event { st with queue := rest } e)

/-- Models `Telemetry._process_pending_events` (lines 110–119): one consumer tick,
draining and dispatching up to `_QUEUE_MAX_SIZE` events. -/
def _process_pending_events (st : TelemetryState) : TelemetryState :=
  processLoop _QUEUE_MAX_SIZE st

/-- The `while True` loop of `_drain_queue` (lines 123–130): dispatch every
queued event in FIFO order, counting them. -/
def drainLoop : List TelemetryEvent → TelemetryState → Nat → TelemetryState × Nat
  | [], st, count => (st, count)
  | e :: rest, st, count => drainLoop rest (_dispatch_event st e) (count + 1)

/-- Models `Telemetry._drain_queue` (lines 121–132): flush all remaining events,
then log one "Drained %d" warning iff the count is nonzero. -/
def _drain_queue (st : TelemetryState) : TelemetryState :=
  let r := drainLoop st.queue { st with queue := [] } 0
  if r.2 ≠ 0 then { r.1 with logs := r.1.logs ++ [LogEntry.warnDrained r.2] }
  else r.1

/-- The fields of a `discord.Interaction` that `on_interaction` reads,
already coerced to plain values (id snowflake, coarse interaction type from
`_get_interaction_type`, best-effort name from `_get_command_name`, user and
optional guild ids). -/
structure InteractionInfo where
  id : Int
  interaction_type : String
  command_name : Option String
  user_id : Int
  guild_id : Option Int
deriving DecidableEq

/-- Models `Telemetry.on_interaction` (lines 166–195): cleanup stale entries, record
`(correlation_id, now)` under the interaction id, extract the event data,
and enqueue an `"interaction"` event.  The freshly generated
`uuid.uuid4().hex[:12]` and `time.monotonic()` are parameters. -/
def on_interaction (st : TelemetryState) (info : InteractionInfo)
    (correlation_id : String) (now : ℚ) : TelemetryState :=
  let st := _cleanup_stale_entries st now
  let st := { st with
    pending := fun i => if i = info.id then some (correlation_id, now) else st.pending i }
  let event_data : InteractionData :=
    { interaction_type := info.interaction_type
      command_name := info.command_name
      user_id := info.user_id
      guild_id := info.guild_id
      correlation_id := correlation_id }
  _enqueue st { event_type := "interaction", data := Payload.interaction event_data }

/-- Models `round(x, 1)` applied to a duration in ms (lines 214/252).  Python uses
round-half-to-even on floats; no claim depends on the tie-breaking, so
half-up rounding on ℚ stands in. -/
def round1 (x : ℚ) : ℚ :=
  (⌊x * 10 + 1 / 2⌋ : ℚ) / 10

/-- Models `Telemetry.on_app_command_completion` (lines 198–230): pop the pending
entry, compute the rounded duration, and enqueue a `"completion"` event with
status `"success"`. -/
def on_app_command_completion (st : TelemetryState) (interaction_id : Int)
    (command_name : String) (now : ℚ) : TelemetryState :=
  let r := _pop_pending st interaction_id now
  let correlation_id := r.1.1
  let start_time := r.1.2
  let duration_ms := round1 ((now - start_time) * 1000)
  _enqueue r.2
    { event_type := "completion"
      data := Payload.completion
        { correlation_id := correlation_id
          command_name := command_name
          status := "success"
          duration_ms := some duration_ms
          error_type := none } }

/-- A Python exception value as seen by `log_command_failure`: either an
instance of `UserFriendlyError` (or a subclass — errors.py lines 7–22), the
`app_commands.CommandInvokeError` wrapper holding its `original` cause, or
any other exception class.  Each carries its concrete class name
(`type(e).__name__`). -/
inductive PyExc where
  | userFriendly (className : String)
  | commandInvoke (original : PyExc)
  | other (className : String)
deriving DecidableEq

/-- Models `type(e).__name__`. -/
def PyExc.className : PyExc → String
  | .userFriendly n => n
  | .commandInvoke _ => "CommandInvokeError"
  | .other n => n

/-- Models `isinstance(e, UserFriendlyError)`. -/
def PyExc.isUserFriendly : PyExc → Bool
  | .userFriendly _ => true
  | _ => false

/-- Models `error.original if isinstance(error, app_commands.CommandInvokeError)
else error` (line 255): unwrap exactly one level of the invocation wrapper. -/
def unwrapInvoke : PyExc → PyExc
  | .commandInvoke original => original
  | e => e

/-- Models `Telemetry.log_command_failure` (lines 236–275): pop the pending entry,
unwrap one wrapper level, classify `user_error` vs `internal_error`, record
the cause's class name, and enqueue a `"completion"` event.
`interaction.command.name if interaction.command else "unknown"` is the
`command_name` argument here. -/
def log_command_failure (st : TelemetryState) (interaction_id : Int)
    (command_name : Option String) (error : PyExc) (now : ℚ) : TelemetryState :=
  let r := _pop_pending st interaction_id now
  let correlation_id := r.1.1
  let start_time := r.1.2
  let duration_ms := round1 ((now - start_time) * 1000)
  let actual_error := unwrapInvoke error
  let status := if actual_error.isUserFriendly then "user_error" else "internal_error"
  let error_type := actual_error.className
  _enqueue r.2
    { event_type := "completion"
      data := Payload.completion
        { correlation_id := correlation_id
          command_name := command_name.getD "unknown"
          status := status
          duration_ms := some duration_ms
          error_type := some error_type } }

/-- A value occurring in interaction option data, as classified by
`_serialize_value` (lines 454–478): plain scalars, rich Discord references
(user/member, text channel/voice channel/thread, role — each reduced to its
snowflake id), lists, and string-keyed dicts. -/
inductive Value where
  | vint (n : Int)
  | vstr (s : String)
  | vbool (b : Bool)
  | vnone
  | user (id : Int)
  | channel (id : Int)
  | role (id : Int)
  | vlist (l : List Value)
  | vdict (l : List (String × Value))

mutual

/-- Models `Telemetry._serialize_value` (lines 454–478): user/member, channel-like,
and role references become their bare `id`; lists and dicts are walked
recursively; anything else passes through unchanged. -/
def _serialize_value : Value → Value
  | .user i => .vint i
  | .channel i => .vint i
  | .role i => .vint i
  | .vlist l => .vlist (serializeList l)
  | .vdict l => .vdict (serializeDict l)
  | .vint n => .vint n
  | .vstr s => .vstr s
  | .vbool b => .vbool b
  | .vnone => .vnone

/-- The list comprehension `[self._serialize_value(v) for v in value]`
(line 473). -/
def serializeList : List Value → List Value
  | [] => []
  | v :: tl => _serialize_value v :: serializeList tl

/-- The dict comprehension `{k: self._serialize_value(v) for k, v in
value.items()}` (line 476). -/
def serializeDict : List (String × Value) → List (String × Value)
  | [] => []
  | (k, v) :: tl => (k, _serialize_value v) :: serializeDict tl

end

mutual

/-- No rich Discord reference (user/member, channel-like, role) occurs
anywhere in the value: it is fully reduced to plain serializable data. -/
def noRichRefs : Value → Bool
  | .user _ => false
  | .channel _ => false
  | .role _ => false
  | .vlist l => noRichRefsList l
  | .vdict l => noRichRefsDict l
  | .vint _ => true
  | .vstr _ => true
  | .vbool _ => true
  | .vnone => true

/-- Predicate: `noRichRefs` holding of every element of a list. -/
def noRichRefsList : List Value → Bool
  | [] => true
  | v :: tl => noRichRefs v && noRichRefsList tl

/-- Predicate: `noRichRefs` holding of every value of a string-keyed dict. -/
def noRichRefsDict : List (String × Value) → Bool
  | [] => true
  | (_, v) :: tl => noRichRefs v && noRichRefsDict tl

end

/-- One externally triggered operation on a `Telemetry` cog instance, with
the clock reading (and, for `begin`, the generated correlation id) at which
it runs. -/
inductive Op where
  /-- Models `on_interaction` firing for `info` at time `t`, generating `cid`. -/
  | begin (info : InteractionInfo) (cid : String) (t : ℚ)
  /-- Models `on_app_command_completion` for interaction `id` at time `t`. -/
  | complete (id : Int) (name : String) (t : ℚ)
  /-- Models `log_command_failure` for interaction `id` at time `t`. -/
  | fail (id : Int) (name : Option String) (e : PyExc) (t : ℚ)
  /-- One consumer tick (`_process_pending_events`). -/
  | tick
  /-- The shutdown drain (`_drain_queue`). -/
  | drain

/-- Interpret one operation as a state transition. -/
def runOp (st : TelemetryState) : Op → TelemetryState
  | .begin info cid t => on_interaction st info cid t
  | .complete id name t => on_app_command_completion st id name t
  | .fail id name e t => log_command_failure st id name e t
  | .tick => _process_pending_events st
  | .drain => _drain_queue st

/-- Run a sequence of operations left to right. -/
def runOps (st : TelemetryState) (ops : List Op) : TelemetryState :=
  ops.foldl runOp st

/-- Holds when `op` neither pops nor overwrites the pending entry of interaction `id`:
it is not a completion/failure for `id`, not a duplicate `begin` for `id`,
and (if a `begin`, which reaps) it runs no later than `limit` after the
entry's start time, keeping the entry below the stale threshold. -/
def PreservesEntry (id : Int) (t0 : ℚ) : Op → Prop
  | .begin info _ t => info.id ≠ id ∧ t - t0 ≤ _STALE_THRESHOLD_SECONDS
  | .complete i _ _ => i ≠ id
  | .fail i _ _ _ => i ≠ id
  | .tick => True
  | .drain => True

/-- Holds when `op` is not an `on_interaction` call for interaction `id` (so it can
never re-create a pending entry for `id`). -/
def NoBeginFor (id : Int) : Op → Prop
  | .begin info _ _ => info.id ≠ id
  | _ => True

/-- The interaction event of the spec's end-to-end scenario (spec §8):
`{type: slash_command, command_name: "ping", user_id: 42, guild_id: 100}`. -/
def c1Event : TelemetryEvent :=
  { event_type := "interaction"
    data := Payload.interaction
      { interaction_type := "slash_command"
        command_name := some "ping"
        user_id := 42
        guild_id := some 100
        correlation_id := "abc123" } }

/-- A telemetry state whose queue is exactly at capacity. -/
def fullState : TelemetryState :=
  { initState with queue := List.replicate _QUEUE_MAX_SIZE c1Event }

/-- A slash-command interaction with snowflake id 5. -/
def pingInfo : InteractionInfo :=
  { id := 5, interaction_type := "slash_command", command_name := some "ping"
    user_id := 42, guild_id := some 100 }

/-- A state holding one pending entry: interaction 5 began at time 0 with
correlation id `"origcid"`. -/
def beganState : TelemetryState :=
  on_interaction initState pingInfo "origcid" 0

/-- A completion record for `"ping"` with duration 10.0 ms. -/
def pingTen : CompletionData :=
  { correlation_id := "c1", command_name := "ping", status := "success"
    duration_ms := some 10, error_type := none }

/-- A completion record for `"ping"` with duration 30.0 ms. -/
def pingThirty : CompletionData :=
  { correlation_id := "c2", command_name := "ping", status := "success"
    duration_ms := some 30, error_type := none }

/-- A state with exactly one queued event left at shutdown. -/
def drainState : TelemetryState :=
  { initState with queue := [c1Event] }

/-- A second interaction, distinct from interaction 5. -/
def otherInfo : InteractionInfo :=
  { id := 6, interaction_type := "button", command_name := some "confirm"
    user_id := 43, guild_id := some 100 }

-- ==========================================================================
-- Helper lemmas
-- ==========================================================================

lemma enqueue_pending (st : TelemetryState) (e : TelemetryEvent) :
    (_enqueue st e).pending = st.pending := by
  unfold _enqueue; split <;> rfl

lemma pop_queue (st : TelemetryState) (id : Int) (now : ℚ) :
    (_pop_pending st id now).2.queue = st.queue := by
  unfold _pop_pending
  cases h : st.pending id <;> rfl

lemma dispatch_queue (st : TelemetryState) (e : TelemetryEvent) :
    (_dispatch_event st e).queue = st.queue := by
  unfold _dispatch_event
  split
  · cases e.data <;> rfl
  · split
    · cases e.data <;> rfl
    · rfl

lemma dispatch_pending (st : TelemetryState) (e : TelemetryEvent) :
    (_dispatch_event st e).pending = st.pending := by
  unfold _dispatch_event
  split
  · cases e.data <;> rfl
  · split
    · cases e.data <;> rfl
    · rfl

lemma processLoop_pending (fuel : Nat) (st : TelemetryState) :
    (processLoop fuel st).pending = st.pending := by
  induction fuel generalizing st with
  | zero => rfl
  | succ n ih =>
      unfold processLoop
      cases h : st.queue with
      | nil => rfl
      | cons e rest => rw [ih, dispatch_pending]

lemma foldl_dispatch_pending (l : List TelemetryEvent) (st : TelemetryState) :
    (l.foldl _dispatch_event st).pending = st.pending := by
  induction l generalizing st with
  | nil => rfl
  | cons e rest ih => rw [List.foldl_cons, ih, dispatch_pending]

lemma drainLoop_eq (l : List TelemetryEvent) (st : TelemetryState) (c : Nat) :
    drainLoop l st c = (l.foldl _dispatch_event st, c + l.length) := by
  induction l generalizing st c with
  | nil => rfl
  | cons e rest ih => simp [drainLoop, ih, List.foldl_cons]; omega

lemma drain_pending (st : TelemetryState) :
    (_drain_queue st).pending = st.pending := by
  unfold _drain_queue
  rw [drainLoop_eq]
  by_cases h : st.queue.length = 0 <;>
    simp [h, foldl_dispatch_pending]

lemma on_interaction_pending (st : TelemetryState) (info : InteractionInfo)
    (cid : String) (t : ℚ) :
    (on_interaction st info cid t).pending = fun i =>
      if i = info.id then some (cid, t) else (_cleanup_stale_entries st t).pending i := by
  simp [on_interaction, enqueue_pending]

lemma cleanup_pending_some (st : TelemetryState) (now : ℚ) (j : Int) (c : String)
    (t0 : ℚ) (h : st.pending j = some (c, t0)) :
    (_cleanup_stale_entries st now).pending j =
      if now - t0 > _STALE_THRESHOLD_SECONDS then none else some (c, t0) := by
  unfold _cleanup_stale_entries
  simp [h]

lemma cleanup_pending_none (st : TelemetryState) (now : ℚ) (j : Int)
    (h : st.pending j = none) :
    (_cleanup_stale_entries st now).pending j = none := by
  unfold _cleanup_stale_entries
  simp [h]

lemma pop_pending_other (st : TelemetryState) (id : Int) (now : ℚ) (j : Int)
    (h : j ≠ id) :
    (_pop_pending st id now).2.pending j = st.pending j := by
  unfold _pop_pending
  cases hp : st.pending id with
  | none => rfl
  | some e => simp [h]

lemma pop_pending_self (st : TelemetryState) (id : Int) (now : ℚ) :
    (_pop_pending st id now).2.pending id = none ∨
      (_pop_pending st id now).2.pending id = st.pending id := by
  unfold _pop_pending
  cases hp : st.pending id with
  | none => right; simp [hp]
  | some e => left; simp

lemma pop_pending_none_preserved (st : TelemetryState) (i : Int) (now : ℚ) (j : Int)
    (h : st.pending j = none) :
    (_pop_pending st i now).2.pending j = none := by
  unfold _pop_pending
  cases hp : st.pending i with
  | none => exact h
  | some e =>
      by_cases hj : j = i <;> simp [hj, h]

lemma on_app_command_completion_pending (st : TelemetryState) (id : Int)
    (name : String) (now : ℚ) :
    (on_app_command_completion st id name now).pending =
      (_pop_pending st id now).2.pending := by
  simp [on_app_command_completion, enqueue_pending]

lemma log_command_failure_pending (st : TelemetryState) (id : Int)
    (name : Option String) (e : PyExc) (now : ℚ) :
    (log_command_failure st id name e now).pending =
      (_pop_pending st id now).2.pending := by
  simp [log_command_failure, enqueue_pending]

lemma runOp_preserves_entry (st : TelemetryState) (op : Op) (id : Int)
    (cid : String) (t0 : ℚ) (h : st.pending id = some (cid, t0))
    (hop : PreservesEntry id t0 op) :
    (runOp st op).pending id = some (cid, t0) := by
  cases op with
  | begin info cid' t =>
      obtain ⟨hne, hle⟩ := hop
      rw [runOp, on_interaction_pending]
      have hid : id ≠ info.id := fun hc => hne hc.symm
      simp only [hid, if_false]
      rw [cleanup_pending_some st t id cid t0 h]
      have : ¬(t - t0 > _STALE_THRESHOLD_SECONDS) := not_lt.mpr hle
      simp [this]
  | complete i name t =>
      rw [runOp, on_app_command_completion_pending,
        pop_pending_other st i t id (fun hc => hop hc.symm)]
      exact h
  | fail i name e t =>
      rw [runOp, log_command_failure_pending,
        pop_pending_other st i t id (fun hc => hop hc.symm)]
      exact h
  | tick =>
      rw [runOp]
      unfold _process_pending_events
      rw [processLoop_pending]
      exact h
  | drain =>
      rw [runOp, drain_pending]
      exact h

lemma runOps_preserves_entry (ops : List Op) (st : TelemetryState) (id : Int)
    (cid : String) (t0 : ℚ) (h : st.pending id = some (cid, t0))
    (hops : ∀ op ∈ ops, PreservesEntry id t0 op) :
    (runOps st ops).pending id = some (cid, t0) := by
  induction ops generalizing st with
  | nil => exact h
  | cons op rest ih =>
      rw [runOps, List.foldl_cons]
      exact ih (runOp st op)
        (runOp_preserves_entry st op id cid t0 h (hops op (by simp)))
        (fun o ho => hops o (by simp [ho]))

lemma runOp_keeps_none (st : TelemetryState) (op : Op) (id : Int)
    (h : st.pending id = none) (hop : NoBeginFor id op) :
    (runOp st op).pending id = none := by
  cases op with
  | begin info cid' t =>
      rw [runOp, on_interaction_pending]
      have hid : id ≠ info.id := fun hc => hop hc.symm
      simp only [hid, if_false]
      exact cleanup_pending_none st t id h
  | complete i name t =>
      rw [runOp, on_app_command_completion_pending]
      exact pop_pending_none_preserved st i t id h
  | fail i name e t =>
      rw [runOp, log_command_failure_pending]
      exact pop_pending_none_preserved st i t id h
  | tick =>
      rw [runOp]
      unfold _process_pending_events
      rw [processLoop_pending]
      exact h
  | drain =>
      rw [runOp, drain_pending]
      exact h

lemma runOps_keeps_none (ops : List Op) (st : TelemetryState) (id : Int)
    (h : st.pending id = none) (hops : ∀ op ∈ ops, NoBeginFor id op) :
    (runOps st ops).pending id = none := by
  induction ops generalizing st with
  | nil => exact h
  | cons op rest ih =>
      rw [runOps, List.foldl_cons]
      exact ih (runOp st op)
        (runOp_keeps_none st op id h (hops op (by simp)))
        (fun o ho => hops o (by simp [ho]))

lemma pop_pending_of_entry (st : TelemetryState) (id : Int) (now : ℚ)
    (c : String) (t0 : ℚ) (h : st.pending id = some (c, t0)) :
    (_pop_pending st id now).1 = (c, t0) := by
  unfold _pop_pending
  simp [h]

lemma pop_pending_of_none (st : TelemetryState) (id : Int) (now : ℚ)
    (h : st.pending id = none) :
    (_pop_pending st id now).1 = ("unknown", now) := by
  unfold _pop_pending
  simp [h]

lemma foldl_dispatch_queue (l : List TelemetryEvent) (st : TelemetryState) :
    (l.foldl _dispatch_event st).queue = st.queue := by
  induction l generalizing st with
  | nil => rfl
  | cons e rest ih => rw [List.foldl_cons, ih, dispatch_queue]

lemma dispatch_count_drained (st : TelemetryState) (e : TelemetryEvent) (n : Nat) :
    ((_dispatch_event st e).logs).count (LogEntry.warnDrained n) =
      st.logs.count (LogEntry.warnDrained n) := by
  unfold _dispatch_event
  split
  · cases e.data <;> simp [List.count_append]
  · split
    · cases e.data <;> simp [List.count_append]
    · simp [List.count_append]

lemma foldl_dispatch_count_drained (l : List TelemetryEvent) (st : TelemetryState)
    (n : Nat) :
    ((l.foldl _dispatch_event st).logs).count (LogEntry.warnDrained n) =
      st.logs.count (LogEntry.warnDrained n) := by
  induction l generalizing st with
  | nil => rfl
  | cons e rest ih => rw [List.foldl_cons, ih, dispatch_count_drained]

mutual

theorem serialize_value_no_rich :
    ∀ v : Value, noRichRefs (_serialize_value v) = true
  | .user _ => by simp [_serialize_value, noRichRefs]
  | .channel _ => by simp [_serialize_value, noRichRefs]
  | .role _ => by simp [_serialize_value, noRichRefs]
  | .vint _ => by simp [_serialize_value, noRichRefs]
  | .vstr _ => by simp [_serialize_value, noRichRefs]
  | .vbool _ => by simp [_serialize_value, noRichRefs]
  | .vnone => by simp [_serialize_value, noRichRefs]
  | .vlist l => by
      rw [_serialize_value, noRichRefs]
      exact serialize_list_no_rich l
  | .vdict l => by
      rw [_serialize_value, noRichRefs]
      exact serialize_dict_no_rich l

theorem serialize_list_no_rich :
    ∀ l : List Value, noRichRefsList (serializeList l) = true
  | [] => rfl
  | v :: tl => by
      rw [serializeList, noRichRefsList]
      rw [serialize_value_no_rich v, serialize_list_no_rich tl]
      rfl

theorem serialize_dict_no_rich :
    ∀ l : List (String × Value), noRichRefsDict (serializeDict l) = true
  | [] => rfl
  | (k, v) :: tl => by
      rw [serializeDict, noRichRefsDict]
      rw [serialize_value_no_rich v, serialize_dict_no_rich tl]
      rfl

end

mutual

theorem serialize_value_fix :
    ∀ v : Value, noRichRefs v = true → _serialize_value v = v
  | .user _ => by simp [noRichRefs]
  | .channel _ => by simp [noRichRefs]
  | .role _ => by simp [noRichRefs]
  | .vint _ => by simp [_serialize_value]
  | .vstr _ => by simp [_serialize_value]
  | .vbool _ => by simp [_serialize_value]
  | .vnone => by simp [_serialize_value]
  | .vlist l => by
      intro h
      rw [noRichRefs] at h
      rw [_serialize_value, serialize_list_fix l h]
  | .vdict l => by
      intro h
      rw [noRichRefs] at h
      rw [_serialize_value, serialize_dict_fix l h]

theorem serialize_list_fix :
    ∀ l : List Value, noRichRefsList l = true → serializeList l = l
  | [] => fun _ => rfl
  | v :: tl => by
      intro h
      rw [noRichRefsList, Bool.and_eq_true] at h
      rw [serializeList, serialize_value_fix v h.1, serialize_list_fix tl h.2]

theorem serialize_dict_fix :
    ∀ l : List (String × Value), noRichRefsDict l = true → serializeDict l = l
  | [] => fun _ => rfl
  | (k, v) :: tl => by
      intro h
      rw [noRichRefsDict, Bool.and_eq_true] at h
      rw [serializeDict, serialize_value_fix v h.1, serialize_dict_fix tl h.2]

end

lemma pop_pending_self_none (st : TelemetryState) (id : Int) (now : ℚ) :
    (_pop_pending st id now).2.pending id = none := by
  unfold _pop_pending
  cases hp : st.pending id with
  | none => simp [hp]
  | some e => simp

lemma getLast?_append_singleton {α : Type} (l : List α) (a : α) :
    (l ++ [a]).getLast? = some a := by
  rw [List.getLast?_append_cons l a []]
  rfl

lemma isUserFriendly_iff (e : PyExc) :
    e.isUserFriendly = true ↔ ∃ n, e = PyExc.userFriendly n := by
  cases e <;> simp [PyExc.isUserFriendly]

-- ==========================================================================
-- Claim theorems
-- ==========================================================================

/-- C1: enqueueing exactly one interaction event with interaction type
`slash_command`, command name `"ping"`, user id 42, guild id 100, then
running one consumer tick, makes the snapshot returned by `get_metrics()`
report `total_interactions = 1`, `command_invocations["ping"] = 1`, 42 in
the unique-user set, and `guild_interactions[100] = 1`. -/
theorem end_to_end_single_event_aggregation :
    (get_metrics (_process_pending_events (_enqueue initState c1Event))).total_interactions
        = 1 ∧
    (get_metrics (_process_pending_events (_enqueue initState c1Event))).command_invocations
        "ping" = 1 ∧
    (get_metrics (_process_pending_events (_enqueue initState c1Event))).unique_user_ids
        42 = true ∧
    (get_metrics (_process_pending_events (_enqueue initState c1Event))).guild_interactions
        100 = 1 :=
  ⟨rfl, rfl, rfl, rfl⟩

/-- C2: a fresh per-command latency accumulator holds `count = 0`,
`min_ms = +∞`, `max_ms = 0`, `avg_ms = 0`; after recording exactly the
durations 10.0 and 30.0 for command `"ping"`, its stats hold `count = 2`,
`min_ms = 10`, `max_ms = 30`, `avg_ms = 20`. -/
theorem latency_accumulator_init_and_two_records :
    CommandLatencyStats.init.count = 0 ∧
    CommandLatencyStats.init.min_ms = ⊤ ∧
    CommandLatencyStats.init.max_ms = 0 ∧
    CommandLatencyStats.init.avg_ms = 0 ∧
    (((Metrics.init.record_completion pingTen).record_completion pingThirty).command_latency
        "ping").count = 2 ∧
    (((Metrics.init.record_completion pingTen).record_completion pingThirty).command_latency
        "ping").min_ms = (10 : ℚ) ∧
    (((Metrics.init.record_completion pingTen).record_completion pingThirty).command_latency
        "ping").max_ms = 30 ∧
    (((Metrics.init.record_completion pingTen).record_completion pingThirty).command_latency
        "ping").avg_ms = 20 :=
  ⟨rfl, rfl, rfl, rfl, rfl, rfl, rfl, by
    norm_num [Metrics.record_completion, Metrics.init, pingTen, pingThirty,
      CommandLatencyStats.avg_ms, CommandLatencyStats.record,
      CommandLatencyStats.init]⟩

/-- C3: if a `begin` (`on_interaction`) stores `cid` at time `t0` for an
interaction id, and the matching `end` (`_pop_pending`) happens within the
60-second staleness threshold and before any other operation popped,
overwrote, or reaped that entry, then `end` returns exactly `(cid, t0)`. -/
theorem begin_end_correlation_round_trip (st : TelemetryState)
    (info : InteractionInfo) (cid : String) (t0 : ℚ) (ops : List Op) (t1 : ℚ)
    (hops : ∀ op ∈ ops, PreservesEntry info.id t0 op)
    (_hwithin : t1 - t0 ≤ _STALE_THRESHOLD_SECONDS) :
    (_pop_pending (runOps (on_interaction st info cid t0) ops) info.id t1).1 =
      (cid, t0) := by
  apply pop_pending_of_entry
  apply runOps_preserves_entry ops _ info.id cid t0 _ hops
  rw [on_interaction_pending]
  simp

/-- Witness for C3: interaction 5 begins at time 0 with correlation id
`"deadbeef"`; another interaction begins at time 10 and a consumer tick
runs; the pop at time 20 still returns `("deadbeef", 0)`. -/
theorem begin_end_correlation_round_trip_witness :
    (∀ op ∈ [Op.begin otherInfo "cafe" 10, Op.tick],
        PreservesEntry pingInfo.id 0 op) ∧
    (20 : ℚ) - 0 ≤ _STALE_THRESHOLD_SECONDS ∧
    (_pop_pending (runOps (on_interaction initState pingInfo "deadbeef" 0)
        [Op.begin otherInfo "cafe" 10, Op.tick]) pingInfo.id 20).1 =
      ("deadbeef", 0) := by
  have hops : ∀ op ∈ [Op.begin otherInfo "cafe" 10, Op.tick],
      PreservesEntry pingInfo.id 0 op := by
    intro op hop
    simp only [List.mem_cons, List.mem_singleton, List.not_mem_nil, or_false] at hop
    rcases hop with h | h <;> subst h
    · exact ⟨by decide, by norm_num [_STALE_THRESHOLD_SECONDS]⟩
    · trivial
  exact ⟨hops, by norm_num [_STALE_THRESHOLD_SECONDS],
    begin_end_correlation_round_trip initState pingInfo "deadbeef" 0
      [Op.begin otherInfo "cafe" 10, Op.tick] 20 hops
      (by norm_num [_STALE_THRESHOLD_SECONDS])⟩

/-- C4: an `end` (`_pop_pending`) whose interaction id has no pending entry
returns the fallback `("unknown", now)` and leaves the state unchanged —
it never raises. -/
theorem pop_pending_without_entry_falls_back (st : TelemetryState) (id : Int)
    (now : ℚ) (h : st.pending id = none) :
    _pop_pending st id now = (("unknown", now), st) := by
  unfold _pop_pending
  simp [h]

/-- Witness for C4: popping interaction 7 from the initial state at time 3
returns `("unknown", 3)`. -/
theorem pop_pending_without_entry_falls_back_witness :
    initState.pending 7 = none ∧
    _pop_pending initState 7 3 = (("unknown", 3), initState) :=
  ⟨rfl, pop_pending_without_entry_falls_back initState 7 3 rfl⟩

/-- C5: `_enqueue` is total (the caller is never blocked and receives no
error); below capacity the event is appended; at capacity the event is
dropped and exactly one queue-full warning is logged while queue, pending
map and metrics are untouched; the queue length never exceeds the
capacity of 1000. -/
theorem enqueue_backpressure (st : TelemetryState) (e : TelemetryEvent) :
    (st.queue.length < _QUEUE_MAX_SIZE →
      _enqueue st e = { st with queue := st.queue ++ [e] }) ∧
    (st.queue.length = _QUEUE_MAX_SIZE →
      (_enqueue st e).queue = st.queue ∧
      (_enqueue st e).logs = st.logs ++ [LogEntry.warnQueueFull e.event_type] ∧
      (_enqueue st e).pending = st.pending ∧
      (_enqueue st e).metrics = st.metrics) ∧
    (st.queue.length ≤ _QUEUE_MAX_SIZE →
      (_enqueue st e).queue.length ≤ _QUEUE_MAX_SIZE) := by
  refine ⟨fun h => ?_, fun h => ?_, fun h => ?_⟩
  · unfold _enqueue
    rw [if_pos h]
  · unfold _enqueue
    rw [if_neg (by omega)]
    exact ⟨rfl, rfl, rfl, rfl⟩
  · unfold _enqueue
    split
    · simp only [List.length_append, List.length_singleton]
      omega
    · simpa using h

/-- Witness for C5: appending to the empty queue succeeds; enqueueing onto a
queue of exactly 1000 events drops the event, logs one warning, and keeps
the length at 1000. -/
theorem enqueue_backpressure_witness :
    _enqueue initState c1Event = { initState with queue := initState.queue ++ [c1Event] } ∧
    (_enqueue fullState c1Event).queue = fullState.queue ∧
    (_enqueue fullState c1Event).logs =
      fullState.logs ++ [LogEntry.warnQueueFull c1Event.event_type] ∧
    (_enqueue fullState c1Event).queue.length ≤ _QUEUE_MAX_SIZE := by
  have hfull : fullState.queue.length = _QUEUE_MAX_SIZE := by
    simp [fullState]
  exact ⟨(enqueue_backpressure initState c1Event).1 (by simp [initState, _QUEUE_MAX_SIZE]),
    ((enqueue_backpressure fullState c1Event).2.1 hfull).1,
    ((enqueue_backpressure fullState c1Event).2.1 hfull).2.1,
    (enqueue_backpressure fullState c1Event).2.2 (le_of_eq hfull)⟩

/-- C6: a pending entry whose age strictly exceeds the 60-second threshold
at the time of the next `begin` is removed by the stale-entry cleanup that
`begin` runs first; afterwards every `end` on that id — across any further
operations that do not `begin` that id — returns the fallback, and the
pending map after `begin` is exactly "insert own entry over the cleaned-up
map" (cleanup runs on every `begin`, with no separate timer). -/
theorem stale_entry_reaped_on_next_begin (st : TelemetryState) (id : Int)
    (c : String) (t0 : ℚ) (info : InteractionInfo) (cid : String) (t : ℚ)
    (hentry : st.pending id = some (c, t0))
    (hstale : t - t0 > _STALE_THRESHOLD_SECONDS)
    (hne : info.id ≠ id) :
    (_cleanup_stale_entries st t).pending id = none ∧
    (on_interaction st info cid t).pending id = none ∧
    (∀ ops, (∀ op ∈ ops, NoBeginFor id op) → ∀ t1,
      (_pop_pending (runOps (on_interaction st info cid t) ops) id t1).1 =
        ("unknown", t1)) ∧
    ((on_interaction st info cid t).pending = fun i =>
      if i = info.id then some (cid, t)
      else (_cleanup_stale_entries st t).pending i) := by
  have hclean : (_cleanup_stale_entries st t).pending id = none := by
    rw [cleanup_pending_some st t id c t0 hentry]
    simp [hstale]
  have hbeg : (on_interaction st info cid t).pending id = none := by
    rw [on_interaction_pending]
    have hid : id ≠ info.id := fun hc => hne hc.symm
    simp [hid, hclean]
  refine ⟨hclean, hbeg, ?_, on_interaction_pending st info cid t⟩
  intro ops hops t1
  exact pop_pending_of_none _ id t1 (runOps_keeps_none ops _ id hbeg hops)

/-- Witness for C6: interaction 5 began at time 0; at time 61 interaction 6
begins, reaping the entry; a later completion pop at time 63 returns the
fallback. -/
theorem stale_entry_reaped_on_next_begin_witness :
    (_cleanup_stale_entries beganState 61).pending 5 = none ∧
    (on_interaction beganState otherInfo "newcid" 61).pending 5 = none ∧
    (_pop_pending (runOps (on_interaction beganState otherInfo "newcid" 61)
        [Op.complete 5 "ping" 62]) 5 63).1 = ("unknown", 63) := by
  have h := stale_entry_reaped_on_next_begin beganState 5 "origcid" 0
    otherInfo "newcid" 61 rfl
    (by norm_num [_STALE_THRESHOLD_SECONDS]) (by decide)
  refine ⟨h.1, h.2.1, h.2.2.1 [Op.complete 5 "ping" 62] ?_ 63⟩
  intro op hop
  simp only [List.mem_singleton] at hop
  subst hop
  trivial

/-- C7: `log_command_failure` unwraps one `CommandInvokeError` level to
reach the cause; the completion event it enqueues carries status
`"user_error"` exactly when that cause is an instance of
`UserFriendlyError` and `"internal_error"` otherwise, and its `error_type`
is the cause's concrete class name in both cases. -/
theorem failure_categorization (st : TelemetryState) (id : Int)
    (name : Option String) (error : PyExc) (now : ℚ)
    (hroom : st.queue.length < _QUEUE_MAX_SIZE) :
    ∃ d : CompletionData,
      (log_command_failure st id name error now).queue.getLast? =
        some { event_type := "completion", data := Payload.completion d } ∧
      (d.status = "user_error" ↔ ∃ n, unwrapInvoke error = PyExc.userFriendly n) ∧
      (d.status = "internal_error" ↔ ¬∃ n, unwrapInvoke error = PyExc.userFriendly n) ∧
      d.error_type = some (unwrapInvoke error).className := by
  refine ⟨{ correlation_id := (_pop_pending st id now).1.1
            command_name := name.getD "unknown"
            status := if (unwrapInvoke error).isUserFriendly then "user_error"
                      else "internal_error"
            duration_ms := some (round1 ((now - (_pop_pending st id now).1.2) * 1000))
            error_type := some (unwrapInvoke error).className }, ?_, ?_, ?_, rfl⟩
  · show (_enqueue (_pop_pending st id now).2 _).queue.getLast? = _
    unfold _enqueue
    rw [if_pos (by rw [pop_queue]; exact hroom)]
    exact getLast?_append_singleton _ _
  · cases hb : (unwrapInvoke error).isUserFriendly with
    | true =>
        simp only [hb]
        rw [if_pos trivial]
        exact iff_of_true rfl ((isUserFriendly_iff (unwrapInvoke error)).mp hb)
    | false =>
        simp only [hb]
        rw [if_neg (by simp)]
        refine iff_of_false (by decide) fun hex => ?_
        have hf := (isUserFriendly_iff (unwrapInvoke error)).mpr hex
        rw [hb] at hf
        exact absurd hf (by decide)
  · cases hb : (unwrapInvoke error).isUserFriendly with
    | true =>
        simp only [hb]
        rw [if_pos trivial]
        exact iff_of_false (by decide)
          fun h => h ((isUserFriendly_iff (unwrapInvoke error)).mp hb)
    | false =>
        simp only [hb]
        rw [if_neg (by simp)]
        refine iff_of_true rfl fun hex => ?_
        have hf := (isUserFriendly_iff (unwrapInvoke error)).mpr hex
        rw [hb] at hf
        exact absurd hf (by decide)

/-- Witness for C7: a `RuntimeError` wrapped in a `CommandInvokeError`
logged against the fresh state yields an `internal_error` completion with
`error_type = "RuntimeError"`. -/
theorem failure_categorization_witness :
    ∃ d : CompletionData,
      (log_command_failure initState 7 (some "ping")
          (PyExc.commandInvoke (PyExc.other "RuntimeError")) 5).queue.getLast? =
        some { event_type := "completion", data := Payload.completion d } ∧
      (d.status = "user_error" ↔
        ∃ n, unwrapInvoke (PyExc.commandInvoke (PyExc.other "RuntimeError")) =
          PyExc.userFriendly n) ∧
      (d.status = "internal_error" ↔
        ¬∃ n, unwrapInvoke (PyExc.commandInvoke (PyExc.other "RuntimeError")) =
          PyExc.userFriendly n) ∧
      d.error_type =
        some (unwrapInvoke (PyExc.commandInvoke (PyExc.other "RuntimeError"))).className :=
  failure_categorization initState 7 (some "ping")
    (PyExc.commandInvoke (PyExc.other "RuntimeError")) 5 (by decide)

/-- C8: draining an empty queue at shutdown changes nothing and emits no
"Drained N" warning; draining a queue with N ≥ 1 leftover events dispatches
all N of them (the final metrics and logs are those of folding the
dispatcher over all queued events), empties the queue, and appends exactly
one "Drained N" warning citing N. -/
theorem shutdown_drain_dispatches_and_warns (st : TelemetryState) :
    (st.queue = [] → _drain_queue st = st) ∧
    (st.queue ≠ [] →
      (_drain_queue st).metrics =
        (st.queue.foldl _dispatch_event { st with queue := [] }).metrics ∧
      (_drain_queue st).logs =
        (st.queue.foldl _dispatch_event { st with queue := [] }).logs ++
          [LogEntry.warnDrained st.queue.length] ∧
      (_drain_queue st).queue = []) ∧
    (∀ n, ((_drain_queue st).logs).count (LogEntry.warnDrained n) =
      (st.logs).count (LogEntry.warnDrained n) +
        if st.queue ≠ [] ∧ n = st.queue.length then 1 else 0) := by
  obtain ⟨p, q, m, lg⟩ := st
  refine ⟨fun h => ?_, fun h => ?_, fun n => ?_⟩
  · simp only at h
    subst h
    unfold _drain_queue
    rw [drainLoop_eq]
    simp
  · simp only at h
    have hlen : q.length ≠ 0 := fun hc => h (List.length_eq_zero.mp hc)
    unfold _drain_queue
    rw [drainLoop_eq]
    simp only [Nat.zero_add, ne_eq, hlen, not_false_iff, if_true]
    refine ⟨by trivial, by trivial, ?_⟩
    simp [foldl_dispatch_queue]
  · by_cases h : q = []
    · subst h
      unfold _drain_queue
      rw [drainLoop_eq]
      simp
    · have hlen : q.length ≠ 0 := fun hc => h (List.length_eq_zero.mp hc)
      unfold _drain_queue
      rw [drainLoop_eq]
      simp only [Nat.zero_add, ne_eq, hlen, not_false_iff, if_true]
      rw [List.count_append, foldl_dispatch_count_drained]
      simp only [ne_eq, h, not_false_iff, true_and]
      by_cases hn : n = q.length
      · subst hn
        simp [List.count_singleton]
      · simp only [hn, if_false]
        rw [List.count_cons, List.count_nil]
        simp [Ne.symm hn]

/-- Witness for C8: draining the fresh (empty) state is a no-op; draining a
one-event queue appends exactly one "Drained 1" warning. -/
theorem shutdown_drain_dispatches_and_warns_witness :
    _drain_queue initState = initState ∧
    (_drain_queue drainState).logs =
      (drainState.queue.foldl _dispatch_event { drainState with queue := [] }).logs ++
        [LogEntry.warnDrained drainState.queue.length] ∧
    ((_drain_queue drainState).logs).count (LogEntry.warnDrained 1) =
      (drainState.logs).count (LogEntry.warnDrained 1) +
        if drainState.queue ≠ [] ∧ 1 = drainState.queue.length then 1 else 0 :=
  ⟨(shutdown_drain_dispatches_and_warns initState).1 rfl,
   ((shutdown_drain_dispatches_and_warns drainState).2.1 (by simp [drainState])).2.1,
   (shutdown_drain_dispatches_and_warns drainState).2.2 1⟩

/-- C9: one application of `_serialize_value` reduces every rich Discord
reference at any nesting depth to its bare integer id (no rich reference
survives in the output), so applying `_serialize_value` to its own output
returns that output unchanged. -/
theorem serialize_value_idempotent (v : Value) :
    noRichRefs (_serialize_value v) = true ∧
    _serialize_value (_serialize_value v) = _serialize_value v :=
  ⟨serialize_value_no_rich v,
   serialize_value_fix (_serialize_value v) (serialize_value_no_rich v)⟩

/-- C10: every pending-map operation is local to the entries it names —
`begin` inserts exactly its own entry and (through its cleanup) leaves every
other non-stale entry with exactly its correlation id and start time;
`end` leaves its own entry absent and every other entry untouched; cleanup
removes an entry iff its age strictly exceeds the 60-second threshold. -/
theorem pending_map_operations_are_local (st : TelemetryState) :
    (∀ info cid t j, j ≠ info.id →
      ∀ c t0, st.pending j = some (c, t0) →
        ¬(t - t0 > _STALE_THRESHOLD_SECONDS) →
        (on_interaction st info cid t).pending j = some (c, t0)) ∧
    (∀ info cid t, (on_interaction st info cid t).pending info.id = some (cid, t)) ∧
    (∀ id now j, j ≠ id → (_pop_pending st id now).2.pending j = st.pending j) ∧
    (∀ id now, (_pop_pending st id now).2.pending id = none) ∧
    (∀ now j c t0, st.pending j = some (c, t0) →
      (_cleanup_stale_entries st now).pending j =
        if now - t0 > _STALE_THRESHOLD_SECONDS then none else some (c, t0)) := by
  refine ⟨?_, ?_, ?_, ?_, ?_⟩
  · intro info cid t j hj c t0 hsome hfresh
    rw [on_interaction_pending]
    simp only [hj, if_false]
    rw [cleanup_pending_some st t j c t0 hsome]
    simp [hfresh]
  · intro info cid t
    rw [on_interaction_pending]
    simp
  · intro id now j hj
    exact pop_pending_other st id now j hj
  · intro id now
    exact pop_pending_self_none st id now
  · intro now j c t0 hsome
    exact cleanup_pending_some st now j c t0 hsome

/-- Witness for C10, on the state where interaction 5 began at time 0: a
fresh `begin` of interaction 6 at time 30 keeps entry 5 intact and installs
its own entry; popping interaction 9 leaves entry 5 untouched while popping
interaction 5 removes it; cleanup at time 61 removes entry 5 per the
threshold test. -/
theorem pending_map_operations_are_local_witness :
    (on_interaction beganState otherInfo "newcid" 30).pending 5 =
      some ("origcid", 0) ∧
    (on_interaction beganState otherInfo "newcid" 30).pending otherInfo.id =
      some ("newcid", 30) ∧
    (_pop_pending beganState 9 2).2.pending 5 = beganState.pending 5 ∧
    (_pop_pending beganState 5 2).2.pending 5 = none ∧
    (_cleanup_stale_entries beganState 61).pending 5 =
      if (61 : ℚ) - 0 > _STALE_THRESHOLD_SECONDS then none else some ("origcid", 0) :=
  ⟨(pending_map_operations_are_local beganState).1 otherInfo "newcid" 30 5
      (by decide) "origcid" 0 rfl (by norm_num [_STALE_THRESHOLD_SECONDS]),
   (pending_map_operations_are_local beganState).2.1 otherInfo "newcid" 30,
   (pending_map_operations_are_local beganState).2.2.1 9 2 5 (by decide),
   (pending_map_operations_are_local beganState).2.2.2.1 5 2,
   (pending_map_operations_are_local beganState).2.2.2.2 61 5 "origcid" 0 rfl⟩

end CapyTelemetry
